import Mathlib

/-!
Shallow embedding of `src/main.py` (Luci-MD-Mobile), a Streamlit app that
extracts text from uploaded PDFs, builds FAISS vector stores over the
extracted corpora, binds a user-editable prompt template and asks a chat
model to write an article.

External collaborators are abstracted as function parameters:
the PDF parser (`parse` / `extract`), and the embedding service, which is
visible to the program only through the similarity ranking it induces at
query time (`score`).  Pure functions of the source become Lean functions;
the side effects of one `generate` run (temporary files, external service
calls) are recorded explicitly (`TempTrace`, `Event`).
-/

namespace LuciMD

/-- Abstract binary payload of an uploaded file (`file_data` in the source). -/
abbrev FileData := String

/-- Failure of the underlying PDF parser on an unparseable payload. -/
inductive ExtractionError where
  | unparseable : ExtractionError
deriving DecidableEq, Repr

/-- Accounting of the transient storage used by one call to
`LuciDocumentProcessor.get_text` (main.py lines 35-39): how many temporary
files the call creates and how many it deletes before returning. -/
structure TempTrace where
  created : Nat
  deleted : Nat
deriving DecidableEq, Repr

/-- `LuciDocumentProcessor.get_text` (main.py lines 29-39), with the PDF
parsing stack (`PyPDFLoader` + `load_and_split` + page join) abstracted as
`parse`.  The source opens `tempfile.NamedTemporaryFile(delete=False)`,
writes the payload into it, and runs the loader inside the `with` block.
Because the temporary file is created with `delete=False`, closing it at
the end of the `with` block does not remove it, and no `os.remove` or
`os.unlink` appears anywhere in the module: the file is deleted on no exit
path, whether `parse` returns text or raises.  Hence `created = 1` and
`deleted = 0` in both the success and the failure outcome. -/
def get_text (parse : FileData → Except ExtractionError String) (file_data : FileData) :
    Except ExtractionError String × TempTrace :=
  (parse file_data, { created := 1, deleted := 0 })

/-- A FAISS vector store, abstracted to the list of texts it stores; the
embedding vectors attached to them are opaque to the program and enter
only through the query-time ranking (see `retrieve`). -/
structure VectorStore where
  texts : List String
deriving DecidableEq, Repr

/-- `LuciVectorStoreManager.build_vectorstore` (main.py lines 53-60):
`FAISS.from_texts([self.text], embedding=OpenAIEmbeddings())` stores the
one-element text list `[self.text]`; `as_retriever()` then exposes
similarity retrieval over exactly that store. -/
def build_vectorstore (text : String) : VectorStore :=
  { texts := [text] }

/-- Query-time behaviour of the retriever returned by `as_retriever()`:
rank the stored texts by the similarity the embedding service assigns to
(query, text) pairs — abstracted as `score` — and return the top documents
(the retriever's default of 4).  For the stores this program builds the
ranking is irrelevant, since every store holds exactly one text. -/
def retrieve (score : String → String → ℚ) (vs : VectorStore) (q : String) : List String :=
  (List.insertionSort (fun a b => score q b ≤ score q a) vs.texts).take 4

/-- The closed list of models offered by the UI selectbox (main.py line 71). -/
def model_options : List String :=
  ["gpt-4", "gpt-3.5-turbo-0613", "Gemini", "Luci-FT-Gen", "Claude2"]

/-- The UI state assembled by `LuciUIController.setup_ui`
(main.py lines 74-87): selected model, temperature slider value in
[0.0, 1.0], optional style document, content documents, prompt template. -/
structure UIState where
  selected_model : String
  temperature : ℚ
  sample_article : Option FileData
  essays : List FileData
  prompt_text : String
deriving DecidableEq, Repr

/-- A parsed fragment of a format template: a literal run of characters or
a `\x7bname\x7d` placeholder. -/
inductive Seg where
  | lit : String → Seg
  | ph : String → Seg
deriving DecidableEq, Repr

/-- Prepend a literal character to a parsed segment list, merging it into
a leading literal segment when there is one. -/
def consLit (c : Char) : Option (List Seg) → Option (List Seg)
  | none => none
  | some (Seg.lit s :: rest) => some (Seg.lit (String.mk (c :: s.data)) :: rest)
  | some segs => some (Seg.lit (String.mk [c]) :: segs)

/-- Read a placeholder name up to the closing brace; `none` when the brace
is never closed (Python raises `ValueError` there). -/
def parseName : List Char → Option (String × List Char)
  | [] => none
  | '}' :: rest => some ("", rest)
  | c :: rest => (parseName rest).map (fun p => (String.mk (c :: p.1.data), p.2))

/-- Fuelled scanner for Python `str.format`-style templates, as used by
`ChatPromptTemplate.from_template` on an f-string template: doubled braces
are literal braces, `\x7bname\x7d` is a placeholder, an unmatched brace is
an error.  The fuel only makes the recursion structural; it is always
sufficient when set to the length of the input. -/
def parseFmtF : Nat → List Char → Option (List Seg)
  | _, [] => some []
  | 0, _ :: _ => none
  | fuel + 1, '{' :: '{' :: rest => consLit '{' (parseFmtF fuel rest)
  | fuel + 1, '}' :: '}' :: rest => consLit '}' (parseFmtF fuel rest)
  | fuel + 1, '{' :: rest =>
      match parseName rest with
      | none => none
      | some (name, rest2) => (parseFmtF fuel rest2).map (fun segs => Seg.ph name :: segs)
  | _ + 1, '}' :: _ => none
  | fuel + 1, c :: rest => consLit c (parseFmtF fuel rest)

/-- Parse a template string into segments. -/
def parseFmt (tmpl : String) : Option (List Seg) :=
  parseFmtF tmpl.data.length tmpl.data

/-- Failure of prompt composition: a placeholder with no bound value
(Python `KeyError` at format time) or malformed braces (`ValueError`). -/
inductive TemplateError where
  | missingKey : String → TemplateError
  | badBraces : TemplateError
deriving DecidableEq, Repr

/-- Resolve one segment against the bound values. -/
def renderSeg (bindings : List (String × String)) : Seg → Except TemplateError String
  | Seg.lit s => Except.ok s
  | Seg.ph n =>
      match bindings.lookup n with
      | some v => Except.ok v
      | none => Except.error (TemplateError.missingKey n)

/-- Resolve a segment list left to right, concatenating the results. -/
def renderSegs (bindings : List (String × String)) : List Seg → Except TemplateError String
  | [] => Except.ok ""
  | s :: rest =>
      match renderSeg bindings s, renderSegs bindings rest with
      | Except.ok v, Except.ok r => Except.ok (v ++ r)
      | Except.error e, _ => Except.error e
      | Except.ok _, Except.error e => Except.error e

/-- Binding of the prompt template inside the chain
(main.py lines 120 and 128): the `RunnableParallel` supplies the values
for the keys `context` and `style`, and the template is formatted with
them.  No validation that any particular placeholder occurs in the
template is performed anywhere in the source. -/
def compose_prompt (tmpl ctx sty : String) : Except TemplateError String :=
  match parseFmt tmpl with
  | none => Except.error TemplateError.badBraces
  | some segs => renderSegs [("context", ctx), ("style", sty)] segs

/-- The substitution one resolved segment contributes, when every
placeholder is `context` or `style`. -/
def substSeg (ctx sty : String) : Seg → String
  | Seg.lit s => s
  | Seg.ph n => if n = "context" then ctx else sty

/-- Concatenation of the per-segment substitutions: each placeholder
occurrence contributes exactly one copy of its bound value. -/
def substAll (ctx sty : String) : List Seg → String
  | [] => ""
  | s :: rest => substSeg ctx sty s ++ substAll ctx sty rest

/-- The request the LCEL chain submits to the chat model: the bound
prompt, the model identifier given to `ChatOpenAI(model=...)`
(main.py line 123), and the sampling temperature given to it, if any. -/
structure GenerationRequest where
  prompt : String
  model : String
  temperature : Option ℚ
deriving DecidableEq, Repr

/-- `ChatOpenAI(model=self.ui.selected_model)` (main.py line 123): only
the model identifier is forwarded.  `self.ui.temperature`, set by the
slider on line 82, is read nowhere in `generate`, so no temperature is
part of the invocation. -/
def chatOpenAI_of (ui : UIState) (bound_prompt : String) : GenerationRequest :=
  { prompt := bound_prompt, model := ui.selected_model, temperature := none }

/-- Externally visible step of one `generate` run. -/
inductive Event where
  | extractText : FileData → Event
  | embedBuild : List String → Event
  | genInvoke : GenerationRequest → Event
deriving DecidableEq, Repr

/-- `style_text` (main.py line 107): extract the sample article if one was
uploaded, else the empty string. -/
def style_text (extract : FileData → String) : Option FileData → String
  | some f => extract f
  | none => ""

/-- `source_texts` (main.py line 111): the Python truthiness test
`if self.ui.essays` makes the empty upload list yield `[]`; otherwise each
essay is extracted in list order by the comprehension. -/
def source_texts (extract : FileData → String) : List FileData → List String
  | [] => []
  | es => es.map extract

/-- `" ".join(source_texts)` (main.py line 114): the content corpus is the
extracted texts joined with a single space. -/
def joined_source_text (texts : List String) : String :=
  String.intercalate " " texts

/-- The fixed query string the chain is invoked with (main.py line 128). -/
def retrieval_query : String := "Please write an article in this style"

/-- Stringification of the retrieved document list when the chain feeds it
to the prompt; the exact rendering is irrelevant to every property below,
only that a single retrieved text renders as itself up to this function. -/
def renderDocs (docs : List String) : String :=
  String.intercalate "\n\n" docs

/-- The document-extraction calls `generate` performs, in source order:
the optional sample article (line 107), then each essay in upload order
(line 111). -/
def extract_events (ui : UIState) : List Event :=
  (match ui.sample_article with
   | some f => [Event.extractText f]
   | none => []) ++
  (match ui.essays with
   | [] => []
   | es => es.map Event.extractText)

/-- The bound prompt of one run: the template formatted with the rendered
retrievals from the content store (built on line 114, queried in the chain
of line 128) and the style store (built on line 117). -/
def bound_prompt (extract : FileData → String) (score : String → String → ℚ)
    (ui : UIState) : Except TemplateError String :=
  compose_prompt ui.prompt_text
    (renderDocs (retrieve score
      (build_vectorstore (joined_source_text (source_texts extract ui.essays)))
      retrieval_query))
    (renderDocs (retrieve score
      (build_vectorstore (style_text extract ui.sample_article))
      retrieval_query))

/-- `LuciArticleGenerator.generate` (main.py lines 101-131): extract the
style document and the essays, build one FAISS store over the joined
content corpus (line 114) and one over the style text (line 117) — each
`FAISS.from_texts` call is an embedding-service call on its one-element
text list — then bind the template and invoke the chat model with the
selected model identifier (lines 120-128).  The result is the list of
external steps taken together with the request handed to the model, or
the template error that interrupted the run.  No content-emptiness check,
no model-identifier check and no placeholder check occurs anywhere. -/
def generate (extract : FileData → String) (score : String → String → ℚ)
    (ui : UIState) : List Event × Except TemplateError GenerationRequest :=
  match bound_prompt extract score ui with
  | Except.error e =>
      (extract_events ui ++
        [Event.embedBuild [joined_source_text (source_texts extract ui.essays)],
         Event.embedBuild [style_text extract ui.sample_article]],
       Except.error e)
  | Except.ok p =>
      (extract_events ui ++
        [Event.embedBuild [joined_source_text (source_texts extract ui.essays)],
         Event.embedBuild [style_text extract ui.sample_article],
         Event.genInvoke (chatOpenAI_of ui p)],
       Except.ok (chatOpenAI_of ui p))

/-- UI state with no style document and no content documents, a minimal
two-placeholder template, and the defaults of lines 81-82. -/
def ui_no_content : UIState :=
  { selected_model := "gpt-4", temperature := 7 / 10,
    sample_article := none, essays := [],
    prompt_text := "{context}{style}" }

/-- UI state whose selected model identifier lies outside `model_options`,
with one uploaded content document. -/
def ui_bad_model : UIState :=
  { selected_model := "not-a-real-model", temperature := 7 / 10,
    sample_article := none, essays := ["doc one text"],
    prompt_text := "{context}{style}" }

end LuciMD

deriving instance DecidableEq for Except

namespace LuciMD

/-- Every step recorded by `extract_events` is a document extraction. -/
theorem mem_extract_events (ui : UIState) (e : Event) (h : e ∈ extract_events ui) :
    ∃ f, e = Event.extractText f := by
  unfold extract_events at h
  rcases List.mem_append.mp h with h1 | h2
  · cases hs : ui.sample_article with
    | none => rw [hs] at h1; simp at h1
    | some f => rw [hs] at h1; simp at h1; exact ⟨f, h1⟩
  · cases he : ui.essays with
    | nil => rw [he] at h2; simp at h2
    | cons a l =>
        rw [he] at h2
        simp only [List.mem_map] at h2
        obtain ⟨f, _, hf⟩ := h2
        exact ⟨f, hf.symm⟩

/-- Rendering a segment list whose placeholders are all bound succeeds and
contributes exactly one copy of the bound value per placeholder. -/
theorem renderSegs_substAll (ctx sty : String) :
    ∀ segs, (∀ n, Seg.ph n ∈ segs → n = "context" ∨ n = "style") →
      renderSegs [("context", ctx), ("style", sty)] segs
        = Except.ok (substAll ctx sty segs)
  | [], _ => rfl
  | s :: rest, hn => by
      have hs : renderSeg [("context", ctx), ("style", sty)] s
          = Except.ok (substSeg ctx sty s) := by
        cases s with
        | lit l => rfl
        | ph n => rcases hn n (List.mem_cons_self _ _) with h | h <;> subst h <;> rfl
      have hrest := renderSegs_substAll ctx sty rest
        (fun n hm => hn n (List.mem_cons_of_mem _ hm))
      unfold renderSegs
      rw [hs, hrest]
      rfl

/-- Claim C1 counterexample: with no style document and an empty list of
content documents, the pipeline does not fail before the generation
service is invoked — it invokes the chat model (on a prompt bound from the
empty corpus) and returns its request; no `NoContentError` is raised,
indeed none exists in the program. -/
theorem empty_content_invokes_generation :
    Event.genInvoke { prompt := "", model := "gpt-4", temperature := none }
        ∈ (generate (fun d => d) (fun _ _ => 0) ui_no_content).1 ∧
    (generate (fun d => d) (fun _ _ => 0) ui_no_content).2
      = Except.ok { prompt := "", model := "gpt-4", temperature := none } := by
  decide

/-- Claim C1 amended: when the set of uploaded content documents is empty
the pipeline proceeds instead of failing: the content corpus is the empty
string, the content index is built over it (an embedding-service call on
`[""]`), and whenever the template binds, the generation service is
invoked. -/
theorem empty_content_pipeline_proceeds (extract : FileData → String)
    (score : String → String → ℚ) (ui : UIState) (h : ui.essays = []) :
    joined_source_text (source_texts extract ui.essays) = "" ∧
    Event.embedBuild [""] ∈ (generate extract score ui).1 ∧
    ∀ req, (generate extract score ui).2 = Except.ok req →
      Event.genInvoke req ∈ (generate extract score ui).1 := by
  obtain ⟨sm, tp, sa, es, pt⟩ := ui
  change es = [] at h
  subst h
  refine ⟨rfl, ?_, ?_⟩
  · cases hb : bound_prompt extract score ⟨sm, tp, sa, [], pt⟩ <;>
      simp only [generate, hb] <;>
      exact List.mem_append_right _ (List.mem_cons_self _ _)
  · intro req hr
    cases hb : bound_prompt extract score ⟨sm, tp, sa, [], pt⟩ with
    | error e => simp [generate, hb] at hr
    | ok p =>
        simp only [generate, hb] at hr ⊢
        have hq : chatOpenAI_of ⟨sm, tp, sa, [], pt⟩ p = req := by
          simpa using hr
        subst hq
        simp

/-- Claim C1 amended witness: the concrete empty-content run. -/
theorem empty_content_pipeline_proceeds_witness :
    joined_source_text (source_texts (fun d => d) ui_no_content.essays) = "" ∧
    Event.embedBuild [""] ∈ (generate (fun d => d) (fun _ _ => (0 : ℚ)) ui_no_content).1 ∧
    ∀ req, (generate (fun d => d) (fun _ _ => (0 : ℚ)) ui_no_content).2 = Except.ok req →
      Event.genInvoke req ∈ (generate (fun d => d) (fun _ _ => (0 : ℚ)) ui_no_content).1 :=
  empty_content_pipeline_proceeds (fun d => d) (fun _ _ => 0) ui_no_content rfl

/-- Claim C2 counterexample: the identifier "not-a-real-model" is outside
the closed enumeration `model_options`, yet the pipeline neither fails
fast nor fails at all: it calls the embedding service (index build) and
then hands the generation client a request carrying that identifier
verbatim; no `UnsupportedModelError` is raised, indeed none exists in the
program. -/
theorem unsupported_model_forwarded :
    "not-a-real-model" ∉ model_options ∧
    Event.embedBuild ["doc one text"]
        ∈ (generate (fun d => d) (fun _ _ => 0) ui_bad_model).1 ∧
    (generate (fun d => d) (fun _ _ => 0) ui_bad_model).2
      = Except.ok { prompt := "doc one text", model := "not-a-real-model",
                    temperature := none } := by
  decide

/-- Claim C2 amended: the pipeline performs no model-identifier
validation: whatever identifier the UI state carries — member of
`model_options` or not — is forwarded opaquely as the model of the
generation request, and the content-index embedding call is made
regardless of the identifier. -/
theorem model_identifier_forwarded_opaquely (extract : FileData → String)
    (score : String → String → ℚ) (ui : UIState) (req : GenerationRequest)
    (h : (generate extract score ui).2 = Except.ok req) :
    req.model = ui.selected_model ∧
    Event.embedBuild [joined_source_text (source_texts extract ui.essays)]
      ∈ (generate extract score ui).1 := by
  cases hb : bound_prompt extract score ui with
  | error e => simp [generate, hb] at h
  | ok p =>
      simp only [generate, hb] at h ⊢
      have hq : chatOpenAI_of ui p = req := by simpa using h
      subst hq
      exact ⟨rfl, List.mem_append_right _ (List.mem_cons_self _ _)⟩

/-- Claim C2 amended witness: the concrete "not-a-real-model" run. -/
theorem model_identifier_forwarded_opaquely_witness :
    ({ prompt := "doc one text", model := "not-a-real-model",
       temperature := none } : GenerationRequest).model
        = ui_bad_model.selected_model ∧
    Event.embedBuild [joined_source_text (source_texts (fun d => d) ui_bad_model.essays)]
      ∈ (generate (fun d => d) (fun _ _ => (0 : ℚ)) ui_bad_model).1 :=
  model_identifier_forwarded_opaquely (fun d => d) (fun _ _ => 0) ui_bad_model
    { prompt := "doc one text", model := "not-a-real-model", temperature := none }
    (by decide)

/-- Claim C3: for the empty-string corpus, the retriever built by
`build_vectorstore` returns the single stored empty text for every query
and under every similarity the embedding service could induce, and its
rendering into the prompt is the empty string: the result is total (no
error path) and independent of the embedding service's behaviour on the
empty input. -/
theorem empty_corpus_retriever_yields_empty (score : String → String → ℚ)
    (q : String) :
    retrieve score (build_vectorstore "") q = [""] ∧
    renderDocs (retrieve score (build_vectorstore "") q) = "" :=
  ⟨rfl, rfl⟩

/-- Claim C4 counterexample: the template "Write in the style of
\x7bstyle\x7d." has no `context` placeholder, yet prompt composition does
not fail with a `TemplateError` — it succeeds and returns the bound
string; no placeholder-presence validation exists in the program. -/
theorem missing_context_composes :
    compose_prompt "Write in the style of {style}." "CTX" "STY"
      = Except.ok "Write in the style of STY." := by
  decide

/-- Claim C4 amended: prompt composition does not validate that
`context` occurs: it succeeds for every well-braced template whose
placeholders are all drawn from the bound names `context` and `style` —
whether or not `context` appears — and substitutes the bound value
exactly once per placeholder occurrence (one `substSeg` contribution per
parsed segment); only a placeholder with no binding fails, downstream, at
bind time. -/
theorem compose_substitutes_once (tmpl ctx sty : String) (segs : List Seg)
    (hp : parseFmt tmpl = some segs)
    (hn : ∀ n, Seg.ph n ∈ segs → n = "context" ∨ n = "style") :
    compose_prompt tmpl ctx sty = Except.ok (substAll ctx sty segs) := by
  unfold compose_prompt
  rw [hp]
  exact renderSegs_substAll ctx sty segs hn

/-- Claim C4 amended witness: a template with one `style` and two
`context` occurrences binds with exactly one substitution per
occurrence. -/
theorem compose_substitutes_once_witness :
    compose_prompt "A {context} B {style} C {context}" "X" "Y"
      = Except.ok "A X B Y C X" := by
  have h := compose_substitutes_once "A {context} B {style} C {context}" "X" "Y"
    [Seg.lit "A ", Seg.ph "context", Seg.lit " B ", Seg.ph "style",
     Seg.lit " C ", Seg.ph "context"]
    (by decide)
    (by intro n hn; simp at hn; tauto)
  exact h.trans (by decide)

/-- Claim C5 counterexample: a concrete successful extraction creates one
temporary file and deletes none — the transient storage written for the
PDF parser is not cleaned up (`NamedTemporaryFile(delete=False)`, and no
unlink anywhere in the module). -/
theorem get_text_leaks_temp_file :
    (get_text (fun d => Except.ok d) "payload").2.created = 1 ∧
    (get_text (fun d => Except.ok d) "payload").2.deleted = 0 ∧
    (get_text (fun d => Except.ok d) "payload").2.deleted
      ≠ (get_text (fun d => Except.ok d) "payload").2.created := by
  decide

/-- Claim C5 amended: on every invocation of `get_text` — whether the
parser succeeds or fails — exactly one temporary file is created and none
is deleted: the transient storage is leaked on every exit path, never
cleaned up. -/
theorem get_text_never_deletes (parse : FileData → Except ExtractionError String)
    (d : FileData) :
    (get_text parse d).2.created = 1 ∧ (get_text parse d).2.deleted = 0 :=
  ⟨rfl, rfl⟩

/-- Claim C6: the extracted content texts preserve the upload order of
the documents — the i-th extracted text is the extraction of the i-th
uploaded document, and the joined corpus of uploads [A, B, C] is the
extraction of A, then of B, then of C, in that order.  (The source
extracts sequentially in the order of the list comprehension, so
completion order and upload order coincide.) -/
theorem extraction_preserves_upload_order :
    (∀ (extract : FileData → String) (essays : List FileData) (i : Nat),
      (source_texts extract essays).get? i = (essays.get? i).map extract) ∧
    (∀ (extract : FileData → String) (a b c : FileData),
      joined_source_text (source_texts extract [a, b, c])
        = extract a ++ " " ++ extract b ++ " " ++ extract c) := by
  constructor
  · intro extract essays i
    cases essays with
    | nil => rfl
    | cons a l => exact List.get?_map extract (a :: l) i
  · intro extract a b c
    rfl

/-- Claim C7 counterexample: the pipeline joins content documents with a
bare single space — the corpus of the uploads "hello" and "world" is
exactly "hello world", and that separator occurs inside the legitimate
single-document text "hello world" itself. -/
theorem space_join_is_bare_space :
    joined_source_text ["hello", "world"] = "hello world" ∧
    joined_source_text ["hello world"] = "hello world" := by
  decide

/-- Claim C7 amended: the join separator is a single space, which can
occur inside legitimate document text, so document boundaries are not
recoverable from the corpus: two distinct upload lists produce the same
concatenated corpus. -/
theorem space_join_merges_boundaries :
    joined_source_text ["a b", "c"] = joined_source_text ["a", "b c"] ∧
    (["a b", "c"] : List String) ≠ ["a", "b c"] := by
  decide

/-- Claim C8: the request submitted to the generation client carries the
bound template and the selected model identifier but no temperature: the
model is constructed as `ChatOpenAI(model=...)` with no temperature
argument, and the whole pipeline is invariant under changes of the UI
temperature slider — the user-selected temperature is not part of the
model invocation, contradicting the claim (the slider on line 82 is
dead). -/
theorem temperature_not_forwarded :
    (∀ (ui : UIState) (p : String), (chatOpenAI_of ui p).temperature = none) ∧
    (∀ (extract : FileData → String) (score : String → String → ℚ)
       (ui : UIState) (t : ℚ),
      generate extract score { ui with temperature := t }
        = generate extract score ui) := by
  constructor
  · intro ui p
    rfl
  · intro extract score ui t
    cases ui
    rfl

/-- Claim C9: whenever a run invokes the generation service, every
semantic index built during the run was built from exactly one corpus
(every embedding build is over a one-element text list — the style corpus
and the content corpus are never merged into one index), and both the
content-index build and the style-index build occur strictly before the
generation invocation. -/
theorem indexes_separate_and_precede_generation
    (extract : FileData → String) (score : String → String → ℚ) (ui : UIState)
    (req : GenerationRequest) (i : Nat)
    (h : ((generate extract score ui).1)[i]? = some (Event.genInvoke req)) :
    (∀ ts, Event.embedBuild ts ∈ (generate extract score ui).1 → ∃ t, ts = [t]) ∧
    (∃ j, j < i ∧ ((generate extract score ui).1)[j]?
        = some (Event.embedBuild [joined_source_text (source_texts extract ui.essays)])) ∧
    (∃ k, k < i ∧ ((generate extract score ui).1)[k]?
        = some (Event.embedBuild [style_text extract ui.sample_article])) := by
  cases hb : bound_prompt extract score ui with
  | error e =>
      exfalso
      simp only [generate, hb] at h
      have hm := List.getElem?_mem h
      rcases List.mem_append.mp hm with h1 | h2
      · obtain ⟨f, hf⟩ := mem_extract_events ui _ h1
        exact Event.noConfusion hf
      · simp at h2
  | ok p =>
      simp only [generate, hb] at h ⊢
      by_cases hi : i < (extract_events ui).length
      · exfalso
        rw [List.getElem?_append_left hi] at h
        obtain ⟨f, hf⟩ := mem_extract_events ui _ (List.getElem?_mem h)
        exact Event.noConfusion hf
      · push_neg at hi
        rw [List.getElem?_append_right hi] at h
        have hi2 : i - (extract_events ui).length = 2 := by
          rcases hm : i - (extract_events ui).length with _ | _ | _ | m
          · rw [hm] at h; simp at h
          · rw [hm] at h; simp at h
          · rfl
          · rw [hm] at h; simp at h
        refine ⟨?_, ⟨(extract_events ui).length, by omega, ?_⟩,
          ⟨(extract_events ui).length + 1, by omega, ?_⟩⟩
        · intro ts hts
          rcases List.mem_append.mp hts with h1 | h2
          · obtain ⟨f, hf⟩ := mem_extract_events ui _ h1
            exact Event.noConfusion hf
          · simp at h2
            rcases h2 with h2 | h2 <;> exact ⟨_, h2⟩
        · rw [List.getElem?_append_right (le_refl _)]
          simp
        · rw [List.getElem?_append_right (by omega)]
          simp

/-- Claim C9 witness: the concrete empty-input run, whose generation
invocation sits at index 2 of the trace, after the two index builds. -/
theorem indexes_separate_and_precede_generation_witness :
    (∀ ts, Event.embedBuild ts
        ∈ (generate (fun d => d) (fun _ _ => (0 : ℚ)) ui_no_content).1 → ∃ t, ts = [t]) ∧
    (∃ j, j < 2 ∧ ((generate (fun d => d) (fun _ _ => (0 : ℚ)) ui_no_content).1)[j]?
        = some (Event.embedBuild
            [joined_source_text (source_texts (fun d => d) ui_no_content.essays)])) ∧
    (∃ k, k < 2 ∧ ((generate (fun d => d) (fun _ _ => (0 : ℚ)) ui_no_content).1)[k]?
        = some (Event.embedBuild
            [style_text (fun d => d) ui_no_content.sample_article])) :=
  indexes_separate_and_precede_generation (fun d => d) (fun _ _ => 0) ui_no_content
    { prompt := "", model := "gpt-4", temperature := none } 2 (by decide)

/-- Claim C10: for every corpus string, the vector store built by
`build_vectorstore` stores exactly the one-element list holding the whole
corpus, and retrieval — for every query and every similarity the
embedding service could induce — returns exactly that whole corpus, never
a smaller passage within it. -/
theorem vectorstore_holds_single_whole_corpus (t : String)
    (score : String → String → ℚ) (q : String) :
    (build_vectorstore t).texts = [t] ∧
    retrieve score (build_vectorstore t) q = [t] :=
  ⟨rfl, rfl⟩

end LuciMD
